import Mathlib

/-!
# Gossip state-provider extension points (extensions/gossip/state/state.go)

A shallow embedding of the baseline `state` package: the constructor
`NewGossipStateProviderExtension`, the five wrap methods of
`gossipStateProviderExtension` and the package function `AddBlockHandler`.

Go code runs against a mutable world, so every operation is a function
`World → Outcome α`: it either returns a value together with the world it
leaves behind, or panics.  A Go `func` value is `nil` or a closure, an
interface value is `nil` or a reference to an object, and `&T{...}` allocates
a fresh cell on a heap that is part of the world.

The package variable `logger` is set once when the package is loaded and no
function of the file uses it; it is not part of the model.
-/

namespace GossipState

/-! ## Data passed through the extension points -/

/-- Block of the chain (`common.Block`): header sequence number and transaction data. -/
structure Block where
  number : Nat
  data : List Nat
deriving DecidableEq, Repr

/-- Private data of one transaction (`TxPvtData`); `seqInBlock` places it in the block. -/
structure TxPvtData where
  seqInBlock : Nat
  writeSet : List Nat
deriving DecidableEq, Repr

/-- Private data accompanying a block (`util.PvtDataCollections`). -/
abbrev PvtDataCollections := List TxPvtData

/-- Pending block awaiting commit (`proto.Payload`). -/
structure Payload where
  seqNum : Nat
  data : List Nat
deriving DecidableEq, Repr

/-- Peer identity used by peer selection (`discovery.NetworkMember`). -/
structure NetworkMember where
  endpoint : String
  pkiID : Nat
deriving DecidableEq, Repr

/-- Incoming gossip message (`protoext.ReceivedMessage`). -/
structure ReceivedMessage where
  sender : Nat
  nonce : Nat
deriving DecidableEq, Repr

/-- Go `error` value: `none` is `nil` (success), `some msg` an error. -/
abbrev GoError := Option String

/-! ## Interface values

An interface value is `nil` or a reference to the object implementing it;
two interface values are the same exactly when they reference the same object. -/

/-- Value of interface `LedgerResources` (state.go, lines 25 to 44). -/
structure LedgerResources where
  ref : Option Nat
deriving DecidableEq, Repr

/-- Value of interface `GossipServiceMediator` (state.go, lines 67 to 79). -/
structure GossipServiceMediator where
  ref : Option Nat
deriving DecidableEq, Repr

/-- Value of interface `ledger.PeerLedger` (package core/ledger). -/
structure PeerLedger where
  ref : Option Nat
deriving DecidableEq, Repr

/-- Value of interface `api.BlockPublisher` (package extensions/gossip/api). -/
structure BlockPublisher where
  ref : Option Nat
deriving DecidableEq, Repr

/-! ## The world -/

/-- Durable state behind one `LedgerResources` object. -/
structure LedgerState where
  height : Nat
  blocks : List Block
  pvtData : List PvtDataCollections
deriving DecidableEq, Repr

/-- An invocation of a method of `LedgerResources` or `GossipServiceMediator`
(the methods those interfaces declare), or of a callback registered on a
block publisher. -/
inductive Event where
  | storeBlock (ledger : Nat) (number : Nat)
  | storePvtData (ledger : Nat) (txid : String) (blckHeight : Nat)
  | getPvtDataAndBlockByNum (ledger : Nat) (seqNum : Nat)
  | ledgerHeight (ledger : Nat)
  | close (ledger : Nat)
  | verifyBlock (mediator : Nat) (seqNum : Nat)
  | peersOfChannel (mediator : Nat)
  | gossip (mediator : Nat)
  | callback (handler : Nat) (number : Nat)
deriving DecidableEq, Repr

/-- The struct `gossipStateProviderExtension` (state.go, lines 91 to 93):
its only field is `ledger`. -/
structure gossipStateProviderExtension where
  ledger : LedgerResources
deriving DecidableEq, Repr

/-- Everything a Go operation can read or change: the ledgers behind the
`LedgerResources` references, the heap of allocated extension structs, the
handlers registered on each block publisher, and the log of interface methods
and callbacks invoked so far (most recent first). -/
structure World where
  ledgers : List LedgerState
  extensions : List gossipStateProviderExtension
  publishers : List (List Nat)
  log : List Event
deriving DecidableEq, Repr

/-- How a Go call ends: it returns `v` leaving world `w`, or it panics. -/
inductive Outcome (α : Type) where
  | ret (w : World) (v : α)
  | panic (w : World)
deriving DecidableEq, Repr

/-- The world a call leaves behind. -/
def Outcome.world {α : Type} : Outcome α → World
  | .ret w _ => w
  | .panic w => w

/-- The value a call returns, if it returns. -/
def Outcome.value {α : Type} : Outcome α → Option α
  | .ret _ v => some v
  | .panic _ => none

/-- Sequencing of Go calls: a panic in the first skips the second. -/
def Outcome.andThen {α β : Type} (o : Outcome α) (k : α → World → Outcome β) : Outcome β :=
  match o with
  | .ret w v => k v w
  | .panic w => .panic w

/-! ## Handler values (Go `func` values: `nil` or a closure) -/

/-- A non-nil Go `func` value of signature `F`: the closure object it points
to, whose address is its identity, and the code run when it is called. Two
func values are the same value only if they are the same closure object. -/
structure Closure (F : Type) where
  addr : Nat
  call : F

/-- `func(msg protoext.ReceivedMessage)`. -/
abbrev StateRequestHandler := Option (Closure (ReceivedMessage → World → Outcome Unit))

/-- `func()`. -/
abbrev AntiEntropyHandler := Option (Closure (World → Outcome Unit))

/-- `func(peer discovery.NetworkMember) bool`. -/
abbrev PredicateHandler := Option (Closure (NetworkMember → World → Outcome Bool))

/-- `func(payload *proto.Payload, blockingMode bool) error`. -/
abbrev AddPayloadHandler := Option (Closure (Option Payload → Bool → World → Outcome GoError))

/-- `func(block *common.Block, pvtData util.PvtDataCollections) error`. -/
abbrev StoreBlockHandler :=
  Option (Closure (Option Block → PvtDataCollections → World → Outcome GoError))

/-- Calling a state-request handler; calling a `nil` func panics. -/
def invokeStateRequest (h : StateRequestHandler) (msg : ReceivedMessage) (w : World) :
    Outcome Unit :=
  match h with
  | none => .panic w
  | some f => f.call msg w

/-- Calling an anti-entropy handler; calling a `nil` func panics. -/
def invokeAntiEntropy (h : AntiEntropyHandler) (w : World) : Outcome Unit :=
  match h with
  | none => .panic w
  | some f => f.call w

/-- Calling a peer predicate; calling a `nil` func panics. -/
def invokePredicate (h : PredicateHandler) (peer : NetworkMember) (w : World) : Outcome Bool :=
  match h with
  | none => .panic w
  | some f => f.call peer w

/-- Calling an add-payload handler; calling a `nil` func panics. -/
def invokeAddPayload (h : AddPayloadHandler) (payload : Option Payload) (blockingMode : Bool)
    (w : World) : Outcome GoError :=
  match h with
  | none => .panic w
  | some f => f.call payload blockingMode w

/-- Calling a store-block handler; calling a `nil` func panics. -/
def invokeStoreBlock (h : StoreBlockHandler) (block : Option Block) (pvtData : PvtDataCollections)
    (w : World) : Outcome GoError :=
  match h with
  | none => .panic w
  | some f => f.call block pvtData w

/-! ## The package: constructor, wrap methods, AddBlockHandler -/

/-- Value of interface `GossipStateProviderExtension` as the constructor
produces it: a pointer `*gossipStateProviderExtension`, `nil` or the address
of a cell of the extension heap. -/
structure GossipStateProviderExtension where
  ptr : Option Nat
deriving DecidableEq, Repr

/-- The struct a pointer designates in a world, if any. -/
def World.deref (w : World) (s : GossipStateProviderExtension) :
    Option gossipStateProviderExtension :=
  match s.ptr with
  | none => none
  | some a => w.extensions[a]?

/-- The ledger reference bound in the instance `s`, read in world `w`. -/
def World.boundLedger (w : World) (s : GossipStateProviderExtension) : Option LedgerResources :=
  (w.deref s).map (fun e => e.ledger)

/-- Allocation `&gossipStateProviderExtension{...}`: a fresh cell at the end of the heap. -/
def World.alloc (w : World) (e : gossipStateProviderExtension) :
    Outcome GossipStateProviderExtension :=
  .ret { w with extensions := w.extensions ++ [e] } ⟨some w.extensions.length⟩

/-- `AddBlockHandler` (state.go, lines 81 to 84): the body is empty. -/
def AddBlockHandler (_cid : String) (_publisher : BlockPublisher) (w : World) : Outcome Unit :=
  .ret w ()

/-- `NewGossipStateProviderExtension` (state.go, lines 86 to 89):
`return &gossipStateProviderExtension{ledger}`. -/
def NewGossipStateProviderExtension (_chainID : String) (ledger : LedgerResources)
    (_peerLedger : PeerLedger) (_mediator : GossipServiceMediator) (w : World) :
    Outcome GossipStateProviderExtension :=
  w.alloc { ledger := ledger }

namespace gossipStateProviderExtension

/-- Method `HandleStateRequest` (state.go, lines 95 to 97): `return handle`. -/
def HandleStateRequest (_s : GossipStateProviderExtension) (handle : StateRequestHandler)
    (w : World) : Outcome StateRequestHandler :=
  .ret w handle

/-- Method `AntiEntropy` (state.go, lines 99 to 101): `return handle`. -/
def AntiEntropy (_s : GossipStateProviderExtension) (handle : AntiEntropyHandler)
    (w : World) : Outcome AntiEntropyHandler :=
  .ret w handle

/-- Method `Predicate` (state.go, lines 103 to 105): `return handle`. -/
def Predicate (_s : GossipStateProviderExtension) (handle : PredicateHandler)
    (w : World) : Outcome PredicateHandler :=
  .ret w handle

/-- Method `AddPayload` (state.go, lines 107 to 109): `return handle`. -/
def AddPayload (_s : GossipStateProviderExtension) (handle : AddPayloadHandler)
    (w : World) : Outcome AddPayloadHandler :=
  .ret w handle

/-- Method `StoreBlock` (state.go, lines 111 to 113): `return handle`. -/
def StoreBlock (_s : GossipStateProviderExtension) (handle : StoreBlockHandler)
    (w : World) : Outcome StoreBlockHandler :=
  .ret w handle

end gossipStateProviderExtension

open gossipStateProviderExtension

/-! ## Layering and call sequences -/

/-- Wrapping with a first extension and then with a second: the engine hands
the handler returned by the first wrap to the second wrap. -/
def layer {H : Type} (first second : H → World → Outcome H) (h : H) (w : World) : Outcome H :=
  (first h w).andThen second

/-- One call of a wrap method, with the handler passed to it. -/
inductive WrapCall where
  | handleStateRequest (handle : StateRequestHandler)
  | antiEntropy (handle : AntiEntropyHandler)
  | predicate (handle : PredicateHandler)
  | addPayload (handle : AddPayloadHandler)
  | storeBlock (handle : StoreBlockHandler)

/-- Performing one wrap call on the instance `s`; the returned handler is dropped. -/
def WrapCall.run (s : GossipStateProviderExtension) (c : WrapCall) (w : World) : Outcome Unit :=
  match c with
  | .handleStateRequest handle => (HandleStateRequest s handle w).andThen (fun _ w1 => .ret w1 ())
  | .antiEntropy handle => (AntiEntropy s handle w).andThen (fun _ w1 => .ret w1 ())
  | .predicate handle => (Predicate s handle w).andThen (fun _ w1 => .ret w1 ())
  | .addPayload handle => (AddPayload s handle w).andThen (fun _ w1 => .ret w1 ())
  | .storeBlock handle => (StoreBlock s handle w).andThen (fun _ w1 => .ret w1 ())

/-- Performing a finite sequence of wrap calls on the instance `s`, in order. -/
def runWrapCalls (s : GossipStateProviderExtension) : List WrapCall → World → Outcome Unit
  | [], w => .ret w ()
  | c :: cs, w => (c.run s w).andThen (fun _ w1 => runWrapCalls s cs w1)

/-! ## Block publisher -/

/-- Modelled from the spec: the handlers registered on a block publisher
(interface `api.BlockPublisher`, package extensions/gossip/api, is not part of
state.go). A `nil` publisher has none. -/
def World.registered (w : World) (publisher : BlockPublisher) : List Nat :=
  match publisher.ref with
  | none => []
  | some a => (w.publishers[a]?).getD []

/-- Modelled from the spec: publishing a block through a block publisher
(method `Publish` of `api.BlockPublisher`, not part of state.go) invokes the
callback of every handler registered on it, once, in registration order;
a `nil` publisher panics. -/
def Publish (publisher : BlockPublisher) (block : Block) (w : World) : Outcome Unit :=
  match publisher.ref with
  | none => .panic w
  | some _ =>
    .ret { w with log := ((w.registered publisher).map
      (fun h => Event.callback h block.number)).reverse ++ w.log } ()

/-- Modelled from the spec: registering a handler on a block publisher (the
`Add...Handler` methods of `api.BlockPublisher`, not part of state.go);
a `nil` or dangling publisher panics. -/
def Register (publisher : BlockPublisher) (handler : Nat) (w : World) : Outcome Unit :=
  match publisher.ref with
  | none => .panic w
  | some a =>
    match w.publishers[a]? with
    | none => .panic w
    | some hs => .ret { w with publishers := w.publishers.set a (hs ++ [handler]) } ()

/-- Publishing a sequence of blocks through a publisher, in order. -/
def publishAll (publisher : BlockPublisher) : List Block → World → Outcome Unit
  | [], w => .ret w ()
  | b :: bs, w => (Publish publisher b w).andThen (fun _ w1 => publishAll publisher bs w1)

/-- Whether a logged event is a callback invocation. -/
def Event.isCallback : Event → Bool
  | .callback _ _ => true
  | _ => false

/-- The callback invocations recorded in a world. -/
def World.callbacks (w : World) : List Event :=
  w.log.filter Event.isCallback

/-! ## Sample values used in the concrete checks -/

/-- A world with one ledger at height 0, one publisher without handlers, an
empty extension heap and an empty log. -/
def world0 : World :=
  { ledgers := [{ height := 0, blocks := [], pvtData := [] }]
    extensions := []
    publishers := [[]]
    log := [] }

/-- A store-block handler, the closure at address 1, that commits through the
ledger at address `a`: it logs the `StoreBlock` call, appends the block and
its private data and advances the height; a `nil` block or an unknown ledger
is an error. -/
def commitHandler (a : Nat) : StoreBlockHandler :=
  some
    { addr := 1
      call := fun block pvtData w =>
        match block, w.ledgers[a]? with
        | some b, some l =>
          .ret { w with
            ledgers := w.ledgers.set a
              { height := l.height + 1, blocks := l.blocks ++ [b],
                pvtData := l.pvtData ++ [pvtData] }
            log := Event.storeBlock a b.number :: w.log } none
        | _, _ => .ret w (some "commit failed") }

/-- A new closure, at address `addr`, wrapping a store-block handler `h` and
doing nothing but delegate to it. -/
def delegatingWrapper (addr : Nat) (h : StoreBlockHandler) : StoreBlockHandler :=
  some { addr := addr, call := fun block pvtData w => invokeStoreBlock h block pvtData w }

/-- The layering law for one extension point `X`: wrapping with two instances
gives the same result in either order, layering three instances gives the
same result however the layers are grouped, and in every case the wrap
returns, leaves the world as it was and yields the handler `h` it started
from. -/
def LayeringLaw {H : Type} (X : GossipStateProviderExtension → H → World → Outcome H) : Prop :=
  ∀ (e1 e2 e3 : GossipStateProviderExtension) (h : H) (w : World),
    layer (X e1) (X e2) h w = layer (X e2) (X e1) h w ∧
    layer (layer (X e1) (X e2)) (X e3) h w = layer (X e1) (layer (X e2) (X e3)) h w ∧
    layer (X e1) (X e2) h w = .ret w h ∧
    layer (layer (X e1) (X e2)) (X e3) h w = .ret w h

/-! ## Basic facts about the model -/

theorem WrapCall.run_eq (s : GossipStateProviderExtension) (c : WrapCall) (w : World) :
    c.run s w = .ret w () := by
  cases c <;> rfl

theorem runWrapCalls_eq (s : GossipStateProviderExtension) (cs : List WrapCall) (w : World) :
    runWrapCalls s cs w = .ret w () := by
  induction cs with
  | nil => rfl
  | cons c cs ih => simp [runWrapCalls, WrapCall.run_eq, Outcome.andThen, ih]

theorem Publish_registered (publisher q : BlockPublisher) (b : Block) (w : World) :
    (Publish publisher b w).world.registered q = w.registered q := by
  unfold Publish
  cases publisher.ref <;> rfl

theorem Publish_log_of_fresh (publisher : BlockPublisher) (b : Block) (w : World)
    (h : w.registered publisher = []) : (Publish publisher b w).world.log = w.log := by
  unfold Publish
  cases hp : publisher.ref with
  | none => rfl
  | some a => simp [Outcome.world, h]

theorem publishAll_log_of_fresh (publisher : BlockPublisher) (bs : List Block) (w : World)
    (h : w.registered publisher = []) : (publishAll publisher bs w).world.log = w.log := by
  induction bs generalizing w with
  | nil => rfl
  | cons b bs ih =>
    unfold publishAll
    cases hP : Publish publisher b w with
    | panic w1 =>
      have := Publish_log_of_fresh publisher b w h
      rw [hP] at this
      simpa [Outcome.andThen, Outcome.world] using this
    | ret w1 u =>
      have h1 := Publish_log_of_fresh publisher b w h
      have h2 := Publish_registered publisher publisher b w
      rw [hP] at h1 h2
      simp only [Outcome.world] at h1 h2
      simp only [Outcome.andThen]
      rw [ih w1 (h2.trans h), h1]

/-- Invoking the sample commit handler does change the ledger and the log:
the world is sensitive to a handler being run. -/
theorem commitHandler_changes_world :
    (invokeStoreBlock (commitHandler 0) (some ⟨7, [1]⟩) [] world0).world ≠ world0 := by
  decide

/-- A delegating wrapper around a handler behaves as the handler but is not
the handler itself: handler values are told apart by closure identity. -/
theorem delegatingWrapper_is_not_the_handler :
    delegatingWrapper 2 (commitHandler 0) ≠ commitHandler 0 ∧
    ∀ block pvtData w, invokeStoreBlock (delegatingWrapper 2 (commitHandler 0)) block pvtData w =
      invokeStoreBlock (commitHandler 0) block pvtData w := by
  refine ⟨fun h => ?_, fun _ _ _ => rfl⟩
  have h2 := congrArg (fun o : StoreBlockHandler => o.map Closure.addr) h
  simp [delegatingWrapper, commitHandler] at h2

/-- Publishing through a publisher with a registered handler does invoke its callback. -/
theorem Publish_invokes_registered :
    ((Register ⟨some 0⟩ 5 world0).andThen
      (fun _ w => Publish ⟨some 0⟩ ⟨7, [1]⟩ w)).world.callbacks = [Event.callback 5 7] := by
  decide

/-! ## The wrap operations -/

/-- C1: each of the five wrap operations (HandleStateRequest, AntiEntropy,
Predicate, AddPayload, StoreBlock), on every extension instance and for every
handler `h`, returns `h` itself: the same closure object (or nil), not a new
closure wrapping it. -/
theorem wrap_returns_handler_itself (s : GossipStateProviderExtension) (w : World) :
    (∀ h, (HandleStateRequest s h w).value = some h) ∧
    (∀ h, (AntiEntropy s h w).value = some h) ∧
    (∀ h, (Predicate s h w).value = some h) ∧
    (∀ h, (AddPayload s h w).value = some h) ∧
    (∀ h, (StoreBlock s h w).value = some h) :=
  ⟨fun _ => rfl, fun _ => rfl, fun _ => rfl, fun _ => rfl, fun _ => rfl⟩

/-- C2: for each of the five extension points, invoking the handler returned
by the wrap (obtained in any world `w`) on any input in any later world `w1`
ends exactly as invoking the default handler `h` on that input in `w1`: same
returned boolean or error, same resulting world, same panic; the payload and
the blocking flag are those passed by the caller. -/
theorem wrapped_handler_behaves_as_default (s : GossipStateProviderExtension) (w w1 : World) :
    (∀ h msg, (HandleStateRequest s h w).andThen (fun h1 _ => invokeStateRequest h1 msg w1)
      = invokeStateRequest h msg w1) ∧
    (∀ h, (AntiEntropy s h w).andThen (fun h1 _ => invokeAntiEntropy h1 w1)
      = invokeAntiEntropy h w1) ∧
    (∀ h peer, (Predicate s h w).andThen (fun h1 _ => invokePredicate h1 peer w1)
      = invokePredicate h peer w1) ∧
    (∀ h payload blockingMode,
      (AddPayload s h w).andThen (fun h1 _ => invokeAddPayload h1 payload blockingMode w1)
      = invokeAddPayload h payload blockingMode w1) ∧
    (∀ h block pvtData,
      (StoreBlock s h w).andThen (fun h1 _ => invokeStoreBlock h1 block pvtData w1)
      = invokeStoreBlock h block pvtData w1) :=
  ⟨fun _ _ => rfl, fun _ => rfl, fun _ _ => rfl, fun _ _ _ => rfl, fun _ _ _ => rfl⟩

/-- C3: layering is order-independent and associative at each of the five
extension points: for any instances e1, e2, e3 and any handler, wrapping with
e1 then e2 equals wrapping with e2 then e1, (e1 then e2) then e3 equals
e1 then (e2 then e3), and the handler that results is the original one. -/
theorem layering_order_independent_and_associative :
    LayeringLaw HandleStateRequest ∧ LayeringLaw AntiEntropy ∧ LayeringLaw Predicate ∧
    LayeringLaw AddPayload ∧ LayeringLaw StoreBlock :=
  ⟨fun _ _ _ _ _ => ⟨rfl, rfl, rfl, rfl⟩, fun _ _ _ _ _ => ⟨rfl, rfl, rfl, rfl⟩,
   fun _ _ _ _ _ => ⟨rfl, rfl, rfl, rfl⟩, fun _ _ _ _ _ => ⟨rfl, rfl, rfl, rfl⟩,
   fun _ _ _ _ _ => ⟨rfl, rfl, rfl, rfl⟩⟩

/-- C6: a nil default handler does not make any of the five wrap operations
fail: the wrap returns, leaves the world as it was and yields the nil handler
unchanged; invoking that returned handler, on any input in any world, panics. -/
theorem nil_handler_passes_through (s : GossipStateProviderExtension) (w : World) :
    (HandleStateRequest s none w = .ret w none ∧
      ∀ msg w1, (HandleStateRequest s none w).andThen
        (fun h1 _ => invokeStateRequest h1 msg w1) = .panic w1) ∧
    (AntiEntropy s none w = .ret w none ∧
      ∀ w1, (AntiEntropy s none w).andThen (fun h1 _ => invokeAntiEntropy h1 w1) = .panic w1) ∧
    (Predicate s none w = .ret w none ∧
      ∀ peer w1, (Predicate s none w).andThen
        (fun h1 _ => invokePredicate h1 peer w1) = .panic w1) ∧
    (AddPayload s none w = .ret w none ∧
      ∀ payload blockingMode w1, (AddPayload s none w).andThen
        (fun h1 _ => invokeAddPayload h1 payload blockingMode w1) = .panic w1) ∧
    (StoreBlock s none w = .ret w none ∧
      ∀ block pvtData w1, (StoreBlock s none w).andThen
        (fun h1 _ => invokeStoreBlock h1 block pvtData w1) = .panic w1) :=
  ⟨⟨rfl, fun _ _ => rfl⟩, ⟨rfl, fun _ => rfl⟩, ⟨rfl, fun _ _ => rfl⟩,
   ⟨rfl, fun _ _ _ => rfl⟩, ⟨rfl, fun _ _ _ => rfl⟩⟩

/-- C8: performing any of the five wraps leaves the whole world as it was,
whatever the handler would do if it were run: the ledgers (height, stored
blocks, private data) are the same after the wrap as before, and the log of
invoked `LedgerResources`, `GossipServiceMediator` and callback operations
has no new entry. -/
theorem wrap_leaves_world_unchanged (s : GossipStateProviderExtension) (w : World) :
    (∀ h, (HandleStateRequest s h w).world = w ∧
      (HandleStateRequest s h w).world.ledgers = w.ledgers ∧
      (HandleStateRequest s h w).world.log = w.log) ∧
    (∀ h, (AntiEntropy s h w).world = w ∧
      (AntiEntropy s h w).world.ledgers = w.ledgers ∧
      (AntiEntropy s h w).world.log = w.log) ∧
    (∀ h, (Predicate s h w).world = w ∧
      (Predicate s h w).world.ledgers = w.ledgers ∧
      (Predicate s h w).world.log = w.log) ∧
    (∀ h, (AddPayload s h w).world = w ∧
      (AddPayload s h w).world.ledgers = w.ledgers ∧
      (AddPayload s h w).world.log = w.log) ∧
    (∀ h, (StoreBlock s h w).world = w ∧
      (StoreBlock s h w).world.ledgers = w.ledgers ∧
      (StoreBlock s h w).world.log = w.log) :=
  ⟨fun _ => ⟨rfl, rfl, rfl⟩, fun _ => ⟨rfl, rfl, rfl⟩, fun _ => ⟨rfl, rfl, rfl⟩,
   fun _ => ⟨rfl, rfl, rfl⟩, fun _ => ⟨rfl, rfl, rfl⟩⟩

/-! ## AddBlockHandler -/

/-- C4: `AddBlockHandler` is a no-op: for every channel id, publisher and
world it returns leaving the world as it was, so the handlers registered on
the publisher are those registered before; publishing any blocks through the
publisher afterwards ends exactly as publishing them without the call, and
when the publisher had no handler the publication adds no callback invocation
to the log. -/
theorem AddBlockHandler_is_noop (cid : String) (publisher : BlockPublisher) (w : World) :
    AddBlockHandler cid publisher w = .ret w () ∧
    (AddBlockHandler cid publisher w).world.registered publisher = w.registered publisher ∧
    (∀ blocks, (AddBlockHandler cid publisher w).andThen (fun _ w1 => publishAll publisher blocks w1)
      = publishAll publisher blocks w) ∧
    (∀ blocks, w.registered publisher = [] →
      ((AddBlockHandler cid publisher w).andThen
        (fun _ w1 => publishAll publisher blocks w1)).world.log = w.log ∧
      ((AddBlockHandler cid publisher w).andThen
        (fun _ w1 => publishAll publisher blocks w1)).world.callbacks = w.callbacks) := by
  refine ⟨rfl, rfl, fun _ => rfl, fun blocks hfresh => ?_⟩
  have hlog : ((AddBlockHandler cid publisher w).andThen
      (fun _ w1 => publishAll publisher blocks w1)).world.log = w.log :=
    publishAll_log_of_fresh publisher blocks w hfresh
  exact ⟨hlog, by unfold World.callbacks; rw [hlog]⟩

/-! ## The constructor and the instances it builds -/

/-- C5 (as amended): the constructor binds the instance to the ledger
resources it was given and to nothing else: it returns a fresh instance whose
only content is the reference to that ledger, and two calls made in the same
world give the same result exactly when their ledgers are the same, whatever
their channel ids, peer ledgers and mediators. -/
theorem constructor_binds_ledger_only (chainID : String) (ledger : LedgerResources)
    (peerLedger : PeerLedger) (mediator : GossipServiceMediator) (w : World) :
    (∃ s w1, NewGossipStateProviderExtension chainID ledger peerLedger mediator w = .ret w1 s ∧
      w.deref s = none ∧
      w1.deref s = some { ledger := ledger } ∧
      w1.boundLedger s = some ledger) ∧
    (∀ chainID2 ledger2 peerLedger2 mediator2,
      NewGossipStateProviderExtension chainID2 ledger2 peerLedger2 mediator2 w =
        NewGossipStateProviderExtension chainID ledger peerLedger mediator w ↔
      ledger2 = ledger) := by
  refine ⟨⟨⟨some w.extensions.length⟩, { w with extensions := w.extensions ++ [⟨ledger⟩] },
    rfl, ?_, ?_, ?_⟩, ?_⟩
  · simp [World.deref]
  · simp [World.deref]
  · simp [World.boundLedger, World.deref]
  · intro chainID2 ledger2 peerLedger2 mediator2
    constructor
    · intro h
      simp only [NewGossipStateProviderExtension, World.alloc, Outcome.ret.injEq,
        World.mk.injEq, List.append_cancel_left_eq, List.cons.injEq,
        gossipStateProviderExtension.mk.injEq] at h
      exact h.1.2.1.1
    · intro h
      subst h
      rfl

/-- C5, the claim as stated fails: two instances built one after the other
with different channel ids and different mediators but the same ledger have
equal contents, which hold the ledger reference only; built in the same world
the two calls give the very same result. -/
theorem constructor_drops_channel_and_mediator :
    "channel-a" ≠ "channel-b" ∧
    (⟨some 0⟩ : GossipServiceMediator) ≠ ⟨some 1⟩ ∧
    NewGossipStateProviderExtension "channel-a" ⟨some 0⟩ ⟨none⟩ ⟨some 0⟩ world0 =
      .ret { world0 with extensions := [⟨⟨some 0⟩⟩] } ⟨some 0⟩ ∧
    NewGossipStateProviderExtension "channel-b" ⟨some 0⟩ ⟨none⟩ ⟨some 1⟩
        { world0 with extensions := [⟨⟨some 0⟩⟩] } =
      .ret { world0 with extensions := [⟨⟨some 0⟩⟩, ⟨⟨some 0⟩⟩] } ⟨some 1⟩ ∧
    World.deref { world0 with extensions := [⟨⟨some 0⟩⟩, ⟨⟨some 0⟩⟩] } ⟨some 0⟩ =
      World.deref { world0 with extensions := [⟨⟨some 0⟩⟩, ⟨⟨some 0⟩⟩] } ⟨some 1⟩ ∧
    NewGossipStateProviderExtension "channel-a" ⟨some 0⟩ ⟨none⟩ ⟨some 0⟩ world0 =
      NewGossipStateProviderExtension "channel-b" ⟨some 0⟩ ⟨none⟩ ⟨some 1⟩ world0 := by
  refine ⟨by decide, by decide, rfl, rfl, rfl, rfl⟩

/-- C7: the peer-ledger handle is not used by the constructor: for any two
handles (a nil one included), calls that differ only in the handle give the
same result in the same world, and in any two worlds they give instances with
equal contents on which each of the five wrap operations behaves the same. -/
theorem constructor_ignores_peerLedger (chainID : String) (ledger : LedgerResources)
    (pl1 pl2 : PeerLedger) (mediator : GossipServiceMediator) (wa wb : World) :
    NewGossipStateProviderExtension chainID ledger pl1 mediator wa =
      NewGossipStateProviderExtension chainID ledger pl2 mediator wa ∧
    NewGossipStateProviderExtension chainID ledger ⟨none⟩ mediator wa =
      NewGossipStateProviderExtension chainID ledger pl2 mediator wa ∧
    ∃ s1 w1 s2 w2,
      NewGossipStateProviderExtension chainID ledger pl1 mediator wa = .ret w1 s1 ∧
      NewGossipStateProviderExtension chainID ledger pl2 mediator wb = .ret w2 s2 ∧
      w1.deref s1 = w2.deref s2 ∧
      (∀ h w, HandleStateRequest s1 h w = HandleStateRequest s2 h w) ∧
      (∀ h w, AntiEntropy s1 h w = AntiEntropy s2 h w) ∧
      (∀ h w, Predicate s1 h w = Predicate s2 h w) ∧
      (∀ h w, AddPayload s1 h w = AddPayload s2 h w) ∧
      (∀ h w, StoreBlock s1 h w = StoreBlock s2 h w) := by
  refine ⟨rfl, rfl, _, _, _, _, rfl, rfl, ?_, fun _ _ => rfl, fun _ _ => rfl, fun _ _ => rfl,
    fun _ _ => rfl, fun _ _ => rfl⟩
  simp [World.deref]

/-- C9: the instance is stateless after construction: after any finite
sequence of calls of the five wrap operations, with arbitrary handlers, on an
instance built by the constructor, the world is the one the constructor left,
so the instance still holds the ledger reference supplied at construction and
its contents are unchanged; the same holds from any world for any instance. -/
theorem wrap_calls_keep_binding (chainID : String) (ledger : LedgerResources)
    (peerLedger : PeerLedger) (mediator : GossipServiceMediator) (w : World)
    (calls : List WrapCall) :
    (∃ s w1, NewGossipStateProviderExtension chainID ledger peerLedger mediator w = .ret w1 s ∧
      w1.boundLedger s = some ledger ∧
      runWrapCalls s calls w1 = .ret w1 () ∧
      (runWrapCalls s calls w1).world.boundLedger s = some ledger ∧
      (runWrapCalls s calls w1).world.deref s = some { ledger := ledger }) ∧
    (∀ s0 w0, (runWrapCalls s0 calls w0).world = w0 ∧
      (runWrapCalls s0 calls w0).world.deref s0 = w0.deref s0) := by
  refine ⟨⟨⟨some w.extensions.length⟩, { w with extensions := w.extensions ++ [⟨ledger⟩] },
    rfl, ?_, runWrapCalls_eq _ _ _, ?_, ?_⟩, fun s0 w0 => ?_⟩
  · simp [World.boundLedger, World.deref]
  · rw [runWrapCalls_eq]; simp [Outcome.world, World.boundLedger, World.deref]
  · rw [runWrapCalls_eq]; simp [Outcome.world, World.deref]
  · rw [runWrapCalls_eq]; exact ⟨rfl, rfl⟩

/-- C10: the effective handler does not depend on the instance that produced
it: for any two instances built by the constructor from arbitrary channel
ids, ledgers, peer ledgers and mediators, in arbitrary worlds, each of the
five wrap operations gives the same result on both, for every handler. -/
theorem wrap_independent_of_instance (c1 c2 : String) (l1 l2 : LedgerResources)
    (p1 p2 : PeerLedger) (m1 m2 : GossipServiceMediator) (wa wb w1 w2 : World)
    (s1 s2 : GossipStateProviderExtension)
    (_h1 : NewGossipStateProviderExtension c1 l1 p1 m1 wa = .ret w1 s1)
    (_h2 : NewGossipStateProviderExtension c2 l2 p2 m2 wb = .ret w2 s2) (w : World) :
    (∀ h, HandleStateRequest s1 h w = HandleStateRequest s2 h w) ∧
    (∀ h, AntiEntropy s1 h w = AntiEntropy s2 h w) ∧
    (∀ h, Predicate s1 h w = Predicate s2 h w) ∧
    (∀ h, AddPayload s1 h w = AddPayload s2 h w) ∧
    (∀ h, StoreBlock s1 h w = StoreBlock s2 h w) :=
  ⟨fun _ => rfl, fun _ => rfl, fun _ => rfl, fun _ => rfl, fun _ => rfl⟩

/-- C10 at a concrete input: two instances built one after the other with
different channel ids, ledgers, peer ledgers and mediators wrap alike. -/
theorem wrap_independent_of_instance_witness :
    NewGossipStateProviderExtension "channel-a" ⟨some 0⟩ ⟨none⟩ ⟨some 0⟩ world0 =
      .ret { world0 with extensions := [⟨⟨some 0⟩⟩] } ⟨some 0⟩ ∧
    NewGossipStateProviderExtension "channel-b" ⟨some 1⟩ ⟨some 4⟩ ⟨some 1⟩
        { world0 with extensions := [⟨⟨some 0⟩⟩] } =
      .ret { world0 with extensions := [⟨⟨some 0⟩⟩, ⟨⟨some 1⟩⟩] } ⟨some 1⟩ ∧
    ((∀ h, HandleStateRequest ⟨some 0⟩ h world0 = HandleStateRequest ⟨some 1⟩ h world0) ∧
    (∀ h, AntiEntropy ⟨some 0⟩ h world0 = AntiEntropy ⟨some 1⟩ h world0) ∧
    (∀ h, Predicate ⟨some 0⟩ h world0 = Predicate ⟨some 1⟩ h world0) ∧
    (∀ h, AddPayload ⟨some 0⟩ h world0 = AddPayload ⟨some 1⟩ h world0) ∧
    (∀ h, StoreBlock ⟨some 0⟩ h world0 = StoreBlock ⟨some 1⟩ h world0)) :=
  ⟨rfl, rfl, wrap_independent_of_instance "channel-a" "channel-b" ⟨some 0⟩ ⟨some 1⟩
    ⟨none⟩ ⟨some 4⟩ ⟨some 0⟩ ⟨some 1⟩ world0 { world0 with extensions := [⟨⟨some 0⟩⟩] }
    { world0 with extensions := [⟨⟨some 0⟩⟩] }
    { world0 with extensions := [⟨⟨some 0⟩⟩, ⟨⟨some 1⟩⟩] } ⟨some 0⟩ ⟨some 1⟩ rfl rfl world0⟩

end GossipState
